import Mathlib

/-!
Shallow embedding of the record-validation and cleaning engine of
`main/data_cleaning.py` (pydantic models `UserModel`, `PaymentModel`,
`ProductModel`, `OrderModel`, `DateModel` and the `DataCleaning` driver).

Python strings are embedded as `List Char` (`PyStr`), numbers as `Nat`,
`Int` or `Rat`, fallible validators as `Except`.  Pydantic semantics that
matter here and are embedded faithfully:

* `mode="before"` field validators run on the raw value, before pydantic's
  string coercion; `str_strip_whitespace = True` strips the string during
  coercion, i.e. after the before-validators and before length constraints
  and after-validators.
* a validator raising `ValueError` becomes a field error; all field errors
  of a row are collected into one `ValidationError`.
* a missing required field yields a "Field required" error for that field,
  inside the same per-row `ValidationError`.
-/

namespace RetailClean

/-- Python strings as lists of characters. -/
abbrev PyStr := List Char

instance {E A : Type} [DecidableEq E] [DecidableEq A] : DecidableEq (Except E A) :=
  fun x y =>
    match x, y with
    | Except.ok a, Except.ok b =>
      if h : a = b then isTrue (by rw [h]) else isFalse (by intro hh; cases hh; exact h rfl)
    | Except.ok _, Except.error _ => isFalse (by intro hh; cases hh)
    | Except.error _, Except.ok _ => isFalse (by intro hh; cases hh)
    | Except.error e, Except.error f =>
      if h : e = f then isTrue (by rw [h]) else isFalse (by intro hh; cases hh; exact h rfl)

/-- The ASCII whitespace characters recognised by Python `str.strip()`. -/
def isSpace (c : Char) : Bool :=
  c = ' ' || c = '\t' || c = '\n' || c = '\r' || c = '\x0b' || c = '\x0c'

/-- Python `str.strip()`: drop whitespace from both ends. -/
def pystrip (s : PyStr) : PyStr :=
  List.rdropWhile isSpace (s.dropWhile isSpace)

/-- Whether `p` is a prefix of `s` (Boolean, by direct recursion). -/
def startsList (p s : PyStr) : Bool :=
  match p, s with
  | [], _ => true
  | _ :: _, [] => false
  | a :: p', b :: s' => a = b && startsList p' s'

/-- Python `str.replace` where the pattern is a single character: every
occurrence of `c` is replaced by `r` (replacement text is not rescanned,
which for a single-character pattern coincides with this map). -/
def pyreplace (c : Char) (r : PyStr) : PyStr → PyStr
  | [] => []
  | a :: t => (if a = c then r else [a]) ++ pyreplace c r t

namespace UserModel

/-- First substitution in `UserModel.clean_phone_number`:
`re.sub(r"^\+\d{2,3}\(0\)|^001[- ]?", "", value)`.  The alternation is
anchored, so at most one match at position 0; `\d{2,3}` is greedy with
backtracking, which for a following literal `(` amounts to: exactly three
leading digits followed by `(0)`, else exactly two followed by `(0)`. -/
def phoneSub1 (s : PyStr) : PyStr :=
  match s with
  | '+' :: rest =>
    let ds := rest.takeWhile Char.isDigit
    if ds.length = 3 && startsList ['(', '0', ')'] (rest.drop 3) then
      (rest.drop 3).drop 3
    else if ds.length = 2 && startsList ['(', '0', ')'] (rest.drop 2) then
      (rest.drop 2).drop 3
    else s
  | _ =>
    if startsList ['0', '0', '1'] s then
      match s.drop 3 with
      | '-' :: u => u
      | ' ' :: u => u
      | t => t
    else s

/-- Second substitution: `re.sub(r"^\(0\)|^\(00\)|\(", "", value)` — strip a
leading `(0)` or `(00)`, then delete every remaining `(`. -/
def phoneSub2 (s : PyStr) : PyStr :=
  let t :=
    if startsList ['(', '0', ')'] s then s.drop 3
    else if startsList ['(', '0', '0', ')'] s then s.drop 4
    else s
  t.filter (fun c => c != '(')

/-- Fourth substitution: `re.sub(r"^\d{2,3}", "", value)` — greedily remove
two or three leading digits when present. -/
def phoneSub4 (s : PyStr) : PyStr :=
  if 3 ≤ (s.takeWhile Char.isDigit).length then s.drop 3
  else if (s.takeWhile Char.isDigit).length = 2 then s.drop 2
  else s

/-- `UserModel.clean_phone_number` (`mode="before"` validator on
`phone_number`), for string input. -/
def clean_phone_number (value : PyStr) : PyStr :=
  let v1 := phoneSub1 value
  let v2 := phoneSub2 v1
  let v3 := v2.filter (fun c => c != ')')
  let v4 := phoneSub4 v3
  let v5 := pyreplace '-' [',', ' '] v4
  let v6 := pyreplace '.' [',', ' '] v5
  let v7 := pyreplace 'x' [' ', 'e', 'x', 't', ' '] v6
  pystrip v7

/-- The full `phone_number` field pipeline: the before-validator, then
pydantic string coercion with `str_strip_whitespace = True` (the field is a
plain `str`, so no further constraint). -/
def phone_number_field (raw : PyStr) : PyStr :=
  pystrip (clean_phone_number raw)

/-- `UserModel.validate_country_code` (`mode="before"` validator on
`country_code`).  `info.data.get("country")` holds the already-validated
`country` field when it validated, else `none`. -/
def validate_country_code (country : Option PyStr) (value : PyStr) : PyStr :=
  if country = some ("United Kingdom".data) && value = ("GGB".data) then
    "GB".data
  else value

/-- The full `country_code` field pipeline: the before-validator, then
pydantic string coercion (strip) and the
`constr(min_length=2, max_length=2)` bounds. -/
def country_code_field (country : Option PyStr) (raw : PyStr) :
    Except PyStr PyStr :=
  let v := pystrip (validate_country_code country raw)
  if v.length < 2 then
    Except.error ("String should have at least 2 characters".data)
  else if 2 < v.length then
    Except.error ("String should have at most 2 characters".data)
  else Except.ok v

end UserModel

/-- Whether `sub` occurs as a contiguous substring of `s` (Python `in`). -/
def containsList (sub s : PyStr) : Bool :=
  match s with
  | [] => startsList sub []
  | _ :: t => startsList sub s || containsList sub t

/-- Value of a digit string read in base 10. -/
def digitsToNat (s : PyStr) : Nat :=
  s.foldl (fun acc c => acc * 10 + (c.toNat - 48)) 0

/-- Python `float()` restricted to strings made of digits and periods (the
only shape reaching it in `validate_weight`, whose input is filtered by
`re.sub("[^0-9.]", "", value)`): at most one period and at least one digit
overall, e.g. `"1"`, `"1.5"`, `".5"`, `"5."`; otherwise a `ValueError`. -/
def parsePyFloat (s : PyStr) : Option Rat :=
  match s.splitOn '.' with
  | [a] => if a ≠ [] && a.all Char.isDigit then some (digitsToNat a) else none
  | [a, b] =>
    if (a ≠ [] || b ≠ []) && a.all Char.isDigit && b.all Char.isDigit then
      some ((digitsToNat a : Rat) + (digitsToNat b : Rat) / ((10 : Rat) ^ b.length))
    else none
  | _ => none

namespace PaymentModel

/-- `PaymentModel.validate_card_number` (`mode="before"`): strip every
non-digit character; the length check present in an earlier revision is
commented out in the source. -/
def validate_card_number (value : PyStr) : PyStr :=
  value.filter Char.isDigit

/-- Full `card_number` field pipeline: before-validator, then pydantic
string coercion with whitespace stripping; the field is a plain `str`. -/
def card_number_field (raw : PyStr) : PyStr :=
  pystrip (validate_card_number raw)

end PaymentModel

namespace OrderModel

/-- `OrderModel.validate_card_number` (`mode="before"`): take `str(value)`
and accept iff its length (non-digits included — nothing is stripped) is
between 9 and 19. -/
def validate_card_number (value : PyStr) : Except PyStr PyStr :=
  if 9 ≤ value.length && value.length ≤ 19 then Except.ok value
  else Except.error ("Card number must be between 9 and 16 digits.".data)

/-- Full `card_number` field pipeline: before-validator, then pydantic
string coercion with whitespace stripping. -/
def card_number_field (raw : PyStr) : Except PyStr PyStr :=
  (validate_card_number raw).map pystrip

/-- `OrderModel.validate_product_quantity` (`mode="before"`):
`if value and value <= 0: raise`.  Python truthiness makes `None` and `0`
skip the check (both are falsy), so only a strictly negative present value
raises. -/
def validate_product_quantity (value : Option Int) : Except PyStr (Option Int) :=
  match value with
  | none => Except.ok none
  | some q =>
    if q ≠ 0 && q ≤ 0 then
      Except.error ("Product quantity must be greater than 0.".data)
    else Except.ok (some q)

/-- Number of decimal digits of a natural number (`1` for `0`). -/
def intDigitCount (n : Nat) : Nat := (Nat.toDigits 10 n).length

/-- Full `product_quantity` field pipeline: the before-validator, then the
`condecimal(max_digits=10, decimal_places=2)` bound, which for an integer
input allows at most `10 - 2 = 8` digits before the decimal point. -/
def product_quantity_field (value : Option Int) : Except PyStr (Option Int) :=
  match validate_product_quantity value with
  | Except.error e => Except.error e
  | Except.ok none => Except.ok none
  | Except.ok (some q) =>
    if intDigitCount q.natAbs ≤ 8 then Except.ok (some q)
    else Except.error ("Decimal input should have no more than 8 digits before the decimal point".data)

end OrderModel

namespace ProductModel

/-- `re.sub("[^0-9.]", "", value)`: keep only digits and periods. -/
def weightExtract (s : PyStr) : PyStr :=
  s.filter (fun c => c.isDigit || c = '.')

/-- Parse the digits-and-periods part of `v` and scale by `factor`; a
`float()` failure propagates as a `ValueError` field error. -/
def parseScaled (v : PyStr) (factor : Rat) : Except PyStr Rat :=
  match parsePyFloat (weightExtract v) with
  | some q => Except.ok (q * factor)
  | none => Except.error ("could not convert string to float".data)

/-- `ProductModel.validate_weight` (after-mode validator): lower-case the
stripped value, then test unit substrings in source order `ml`, `kg`, `g`,
`oz` by containment (`in`), scaling by 1, 1000, 1, 28.3495 respectively;
no recognised unit is a `ValueError`. -/
def validate_weight (value : PyStr) : Except PyStr Rat :=
  let v := (pystrip value).map Char.toLower
  if containsList ("ml".data) v then parseScaled v 1
  else if containsList ("kg".data) v then parseScaled v 1000
  else if containsList ("g".data) v then parseScaled v 1
  else if containsList ("oz".data) v then parseScaled v ((283495 : Rat) / 10000)
  else Except.error ("Weight must be in kg or g".data)

/-- Full `weight` field pipeline: pydantic strips the string first
(`str_strip_whitespace = True`), then runs the after-mode validator. -/
def weight_field (raw : PyStr) : Except PyStr Rat :=
  validate_weight (pystrip raw)

end ProductModel

namespace DateModel

/-- A raw row for the `DateModel` columns; `none` models an absent value
(a missing column in the batch). -/
structure RawDateRow where
  timestamp : Option PyStr
  month : Option Int
  year : Option Int
  day : Option Int
  time_period : Option PyStr
  date_uuid : Option PyStr
deriving DecidableEq

/-- The normalized record produced when every field validates. -/
structure DateRecord where
  timestamp : PyStr
  month : Int
  year : Int
  day : Int
  time_period : PyStr
  date_uuid : PyStr
deriving DecidableEq

/-- Pydantic's error message for an absent required field. -/
def fieldRequired : PyStr := "Field required".data

/-- `timestamp: str` under `str_min_length = 1` and whitespace stripping:
any non-empty string passes — no `HH:MM:SS` shape is enforced, because
`validate_timestamp` below is not registered as a field validator. -/
def checkTimestamp : Option PyStr → Except PyStr PyStr
  | none => Except.error fieldRequired
  | some s =>
    let t := pystrip s
    if t.length < 1 then
      Except.error ("String should have at least 1 character".data)
    else Except.ok t

/-- `conint(ge=lo, le=hi)` on a required field. -/
def checkIntRange (lo hi : Int) : Option Int → Except PyStr Int
  | none => Except.error fieldRequired
  | some n =>
    if n < lo then Except.error ("Input should be greater than or equal to the lower bound".data)
    else if hi < n then Except.error ("Input should be less than or equal to the upper bound".data)
    else Except.ok n

/-- `Literal["Morning", "Midday", "Evening", "Late_Hours"]`. -/
def checkTimePeriod : Option PyStr → Except PyStr PyStr
  | none => Except.error fieldRequired
  | some s =>
    if s = "Morning".data || s = "Midday".data || s = "Evening".data ||
        s = "Late_Hours".data then Except.ok s
    else Except.error ("Input should be Morning, Midday, Evening or Late_Hours".data)

/-- ASCII hexadecimal digit. -/
def isHex (c : Char) : Bool :=
  c.isDigit || ('a' ≤ c && c ≤ 'f') || ('A' ≤ c && c ≤ 'F')

/-- `uuid.UUID` on a string: hyphens are removed and 32 hexadecimal digits
are required; the stored value is the lower-cased hex form. -/
def checkUUID : Option PyStr → Except PyStr PyStr
  | none => Except.error fieldRequired
  | some s =>
    let t := s.filter (fun c => c != '-')
    if t.length = 32 && t.all isHex then Except.ok (t.map Char.toLower)
    else Except.error ("Input should be a valid UUID".data)

/-- Collect the field error of one check, tagged with the field name. -/
def errOf (name : PyStr) : Except PyStr α → List (PyStr × PyStr)
  | Except.ok _ => []
  | Except.error e => [(name, e)]

/-- Validation of one `DateModel` row exactly as pydantic wires it: only
the declared field types and `Config` constraints run; the
`validate_timestamp` and `validate_day` classmethods are NOT registered
(no `field_validator` decorator), so they never execute.  All field errors
of the row are collected into one list, in field declaration order. -/
def model_validate (r : RawDateRow) : Except (List (PyStr × PyStr)) DateRecord :=
  match checkTimestamp r.timestamp, checkIntRange 1 12 r.month,
      checkIntRange 1900 2100 r.year, checkIntRange 1 31 r.day,
      checkTimePeriod r.time_period, checkUUID r.date_uuid with
  | Except.ok a, Except.ok b, Except.ok c, Except.ok d, Except.ok e, Except.ok f =>
    Except.ok ⟨a, b, c, d, e, f⟩
  | ra, rb, rc, rd, re, rf =>
    Except.error (errOf ("timestamp".data) ra ++ errOf ("month".data) rb ++
      errOf ("year".data) rc ++ errOf ("day".data) rd ++
      errOf ("time_period".data) re ++ errOf ("date_uuid".data) rf)

/-- Gregorian leap year, as `datetime` uses. -/
def isLeapYear (y : Int) : Bool :=
  (y % 4 = 0 && y % 100 ≠ 0) || y % 400 = 0

/-- Number of days of `month` in `year`, as `datetime` uses. -/
def daysInMonth (year month : Int) : Int :=
  if month = 2 then (if isLeapYear year then 29 else 28)
  else if month = 4 || month = 6 || month = 9 || month = 11 then 30
  else 31

/-- The `DateModel.validate_day` classmethod as documented: the day is
valid iff `datetime(year, month, value)` constructs.  In the source this
method is dead code: it carries no `field_validator` decorator and the
module never imports `datetime`, so invoking it would raise `NameError`. -/
def validate_day (value month year : Int) : Except PyStr Int :=
  if 1 ≤ month && month ≤ 12 && 1 ≤ year && year ≤ 9999 && 1 ≤ value &&
      value ≤ daysInMonth year month then Except.ok value
  else Except.error ("Invalid day for the given month and year".data)

/-- One `strptime` numeric segment: one or two digits. -/
def hmsSegment (s : PyStr) (hi : Nat) : Bool :=
  s ≠ [] && s.length ≤ 2 && s.all Char.isDigit && digitsToNat s ≤ hi

/-- The `DateModel.validate_timestamp` classmethod as documented: the
value is valid iff `datetime.strptime(value, "%H:%M:%S")` parses (hours
0–23, minutes 0–59, seconds 0–61, each one or two digits).  Like
`validate_day`, it is dead code in the source. -/
def validate_timestamp (value : PyStr) : Except PyStr PyStr :=
  match value.splitOn ':' with
  | [h, m, s] =>
    if hmsSegment h 23 && hmsSegment m 59 && hmsSegment s 61 then Except.ok value
    else Except.error ("Invalid timestamp format".data)
  | _ => Except.error ("Invalid timestamp format".data)

/-- `row.get("index", row.name)` for a `DateModel` batch: the rows have no
`index` column, so the positional label is used. -/
def dateRowIndex : RawDateRow → Nat → Nat := fun _ name => name

end DateModel

namespace DataCleaning

/-- The three accumulators of `DataCleaning`: `valid_data`,
`invalid_data`, and `invalid_errors` (each error entry holds the row
identifier, the collected errors and the original row data). -/
structure CleanState (Row E R : Type) where
  valid_data : List R
  invalid_data : List Row
  invalid_errors : List (Nat × E × Row)

/-- The loop body of `DataCleaning.validate_and_clean_data`, carrying the
positional row label `pos` (`row.name`).  Each row is validated with the
model; an `ok` row's normalized record is appended to `valid_data`, a
failing row is appended to `invalid_data` and one error entry is appended
to `invalid_errors`. -/
def cleanRows (model_class : Row → Except E R) (getIndex : Row → Nat → Nat) :
    Nat → List Row → CleanState Row E R
  | _, [] => ⟨[], [], []⟩
  | pos, row :: rest =>
    let s := cleanRows model_class getIndex (pos + 1) rest
    match model_class row with
    | Except.ok m => ⟨m :: s.valid_data, s.invalid_data, s.invalid_errors⟩
    | Except.error e =>
      ⟨s.valid_data, row :: s.invalid_data, (getIndex row pos, e, row) :: s.invalid_errors⟩

/-- `DataCleaning.validate_and_clean_data`: iterate the batch once, in
order, partitioning it into the valid and invalid accumulators. -/
def validate_and_clean_data (model_class : Row → Except E R)
    (getIndex : Row → Nat → Nat) (df : List Row) : CleanState Row E R :=
  cleanRows model_class getIndex 0 df

end DataCleaning

/-- A fully valid `DateModel` row (the shape of the repository's own test
`test_valid_date`). -/
def goodDateRow : DateModel.RawDateRow :=
  ⟨some ("12:30:00".data), some 6, some 2023, some 15, some ("Midday".data),
   some ("123e4567-e89b-12d3-a456-426614174000".data)⟩

/-- The normalized record `goodDateRow` validates to. -/
def goodDateRecord : DateModel.DateRecord :=
  ⟨"12:30:00".data, 6, 2023, 15, "Midday".data,
   "123e4567e89b12d3a456426614174000".data⟩

/-- A `DateModel` row whose `timestamp` value is absent (a missing
`timestamp` column in the batch). -/
def missingTsRow : DateModel.RawDateRow :=
  ⟨none, some 6, some 2023, some 15, some ("Midday".data),
   some ("123e4567-e89b-12d3-a456-426614174000".data)⟩

/-- A `DateModel` row carrying day 31 in month 2 and a malformed
timestamp; every wired constraint (`conint` bounds, `Literal`, UUID,
non-empty string) is satisfied. -/
def feb31Row : DateModel.RawDateRow :=
  ⟨some ("99:99:99".data), some 2, some 2020, some 31, some ("Morning".data),
   some ("123e4567-e89b-12d3-a456-426614174000".data)⟩

/- ------------------------------------------------------------------ -/
/- Helper lemmas (shared between claims).                              -/
/- ------------------------------------------------------------------ -/

theorem toOption_ok {E R : Type} (m : R) :
    (Except.ok m : Except E R).toOption = some m := rfl

theorem toOption_error {E R : Type} (e : E) :
    (Except.error e : Except E R).toOption = none := rfl

theorem mem_pyreplace {a c : Char} {r : PyStr} :
    ∀ {s : PyStr}, a ∈ pyreplace c r s → a ∈ r ∨ a ∈ s
  | [], h => by simp [pyreplace] at h
  | b :: t, h => by
    simp only [pyreplace, List.mem_append] at h
    rcases h with h | h
    · by_cases hb : b = c
      · rw [if_pos hb] at h
        exact Or.inl h
      · rw [if_neg hb] at h
        simp only [List.mem_singleton] at h
        exact Or.inr (h ▸ List.mem_cons_self b t)
    · rcases mem_pyreplace h with h2 | h2
      · exact Or.inl h2
      · exact Or.inr (List.mem_cons_of_mem b h2)

theorem pystrip_sublist (s : PyStr) : (pystrip s).Sublist s :=
  ((List.rdropWhile_prefix isSpace (s.dropWhile isSpace)).sublist).trans
    (List.dropWhile_sublist isSpace)

theorem mem_of_mem_pystrip {a : Char} {s : PyStr} (h : a ∈ pystrip s) : a ∈ s :=
  (pystrip_sublist s).subset h

theorem mem_of_mem_phoneSub4 {a : Char} {s : PyStr} (h : a ∈ UserModel.phoneSub4 s) :
    a ∈ s := by
  unfold UserModel.phoneSub4 at h
  split at h
  · exact (List.drop_sublist 3 s).subset h
  · split at h
    · exact (List.drop_sublist 2 s).subset h
    · exact h

theorem paren_not_mem_phoneSub2 (s : PyStr) : '(' ∉ UserModel.phoneSub2 s := by
  intro h
  unfold UserModel.phoneSub2 at h
  rw [List.mem_filter] at h
  exact absurd h.2 (by decide)

theorem parens_not_mem_clean_phone_number (v : PyStr) :
    '(' ∉ UserModel.clean_phone_number v ∧ ')' ∉ UserModel.clean_phone_number v := by
  unfold UserModel.clean_phone_number
  constructor
  · intro h
    have h7 := mem_of_mem_pystrip h
    rcases mem_pyreplace h7 with h6 | h6
    · exact absurd h6 (by decide)
    rcases mem_pyreplace h6 with h5 | h5
    · exact absurd h5 (by decide)
    rcases mem_pyreplace h5 with h4 | h4
    · exact absurd h4 (by decide)
    have h3 := mem_of_mem_phoneSub4 h4
    rw [List.mem_filter] at h3
    exact paren_not_mem_phoneSub2 _ h3.1
  · intro h
    have h7 := mem_of_mem_pystrip h
    rcases mem_pyreplace h7 with h6 | h6
    · exact absurd h6 (by decide)
    rcases mem_pyreplace h6 with h5 | h5
    · exact absurd h5 (by decide)
    rcases mem_pyreplace h5 with h4 | h4
    · exact absurd h4 (by decide)
    have h3 := mem_of_mem_phoneSub4 h4
    rw [List.mem_filter] at h3
    exact absurd h3.2 (by decide)

theorem validate_country_code_of_value_ne (c : Option PyStr) (v : PyStr)
    (h : v ≠ ("GGB".data)) : UserModel.validate_country_code c v = v := by
  unfold UserModel.validate_country_code
  simp [h]

theorem validate_country_code_of_country_ne (c : Option PyStr) (v : PyStr)
    (h : c ≠ some ("United Kingdom".data)) :
    UserModel.validate_country_code c v = v := by
  unfold UserModel.validate_country_code
  simp [h]

theorem cleanRows_spec {Row E R : Type} (f : Row → Except E R)
    (g : Row → Nat → Nat) (pos : Nat) (df : List Row) :
    (DataCleaning.cleanRows f g pos df).valid_data =
      df.filterMap (fun r => (f r).toOption) ∧
    (DataCleaning.cleanRows f g pos df).invalid_data =
      df.filter (fun r => (f r).toOption.isNone) ∧
    (DataCleaning.cleanRows f g pos df).valid_data.length +
      (DataCleaning.cleanRows f g pos df).invalid_data.length = df.length := by
  induction df generalizing pos with
  | nil => simp [DataCleaning.cleanRows]
  | cons row rest ih =>
    obtain ⟨h1, h2, h3⟩ := ih (pos + 1)
    rw [h1, h2] at h3
    cases hf : f row with
    | ok m =>
      refine ⟨?_, ?_, ?_⟩
      · simp [DataCleaning.cleanRows, hf, toOption_ok, h1]
      · simp [DataCleaning.cleanRows, hf, toOption_ok, h2]
      · simp [DataCleaning.cleanRows, hf, toOption_ok, h1, h2]
        omega
    | error e =>
      refine ⟨?_, ?_, ?_⟩
      · simp [DataCleaning.cleanRows, hf, toOption_error, h1]
      · simp [DataCleaning.cleanRows, hf, toOption_error, h2]
      · simp [DataCleaning.cleanRows, hf, toOption_error, h1, h2]
        omega

theorem cleanRows_all_error {Row E R : Type} (f : Row → Except E R)
    (g : Row → Nat → Nat) (P : E → Prop) (pos : Nat) (df : List Row)
    (h : ∀ r ∈ df, ∃ e, f r = Except.error e ∧ P e) :
    (DataCleaning.cleanRows f g pos df).valid_data = [] ∧
    (DataCleaning.cleanRows f g pos df).invalid_data = df ∧
    ∀ x ∈ (DataCleaning.cleanRows f g pos df).invalid_errors, P x.2.1 := by
  induction df generalizing pos with
  | nil => simp [DataCleaning.cleanRows]
  | cons row rest ih =>
    obtain ⟨e, he, hPe⟩ := h row (List.mem_cons_self row rest)
    obtain ⟨h1, h2, h3⟩ := ih (pos + 1) (fun r hr => h r (List.mem_cons_of_mem row hr))
    refine ⟨?_, ?_, ?_⟩
    · simp [DataCleaning.cleanRows, he, h1]
    · simp [DataCleaning.cleanRows, he, h2]
    · intro x hx
      simp only [DataCleaning.cleanRows, he, List.mem_cons] at hx
      rcases hx with hx | hx
      · rw [hx]
        exact hPe
      · exact h3 x hx

theorem model_validate_missing_timestamp (r : DateModel.RawDateRow)
    (h : r.timestamp = none) :
    ∃ tail, DateModel.model_validate r =
      Except.error ((("timestamp".data, DateModel.fieldRequired)) :: tail) := by
  unfold DateModel.model_validate
  rw [h]
  cases h2 : DateModel.checkIntRange 1 12 r.month <;>
    cases h3 : DateModel.checkIntRange 1900 2100 r.year <;>
      cases h4 : DateModel.checkIntRange 1 31 r.day <;>
        cases h5 : DateModel.checkTimePeriod r.time_period <;>
          cases h6 : DateModel.checkUUID r.date_uuid <;>
            exact ⟨_, rfl⟩

theorem isOk_ok {E R : Type} (m : R) : (Except.ok m : Except E R).isOk = true := rfl

theorem isOk_error {E R : Type} (e : E) :
    (Except.error e : Except E R).isOk = false := rfl

theorem dropWhile_eq_self_of_all {p : Char → Bool} :
    ∀ (l : PyStr), (∀ c ∈ l, p c = false) → l.dropWhile p = l
  | [], _ => rfl
  | a :: t, h =>
    List.dropWhile_cons_of_neg (by rw [h a (List.mem_cons_self a t)]; exact Bool.false_ne_true)

theorem pystrip_eq_self_of_no_space (l : PyStr)
    (h : ∀ c ∈ l, isSpace c = false) : pystrip l = l := by
  unfold pystrip List.rdropWhile
  rw [dropWhile_eq_self_of_all l h,
    dropWhile_eq_self_of_all l.reverse (fun c hc => h c (List.mem_reverse.mp hc)),
    List.reverse_reverse]

theorem isSpace_eq_false_of_isDigit {c : Char} (h : c.isDigit = true) :
    isSpace c = false := by
  cases hs : isSpace c
  · rfl
  · exfalso
    simp only [isSpace, Bool.or_eq_true, decide_eq_true_eq] at hs
    rcases hs with ((((h1 | h1) | h1) | h1) | h1) | h1 <;> subst h1 <;>
      exact absurd h (by decide)

theorem pystrip_cons_space (s : PyStr) : pystrip (' ' :: s) = pystrip s := by
  unfold pystrip
  rw [List.dropWhile_cons_of_pos (by decide)]

theorem pystrip_concat_space (s : PyStr) : pystrip (s ++ [' ']) = pystrip s := by
  unfold pystrip
  rw [List.dropWhile_append]
  by_cases h : (s.dropWhile isSpace).isEmpty
  · rw [if_pos h, List.isEmpty_iff.mp h]
    rfl
  · rw [if_neg h]
    exact List.rdropWhile_concat_pos isSpace (s.dropWhile isSpace) ' ' (by decide)

/- ------------------------------------------------------------------ -/
/- Claim theorems.                                                     -/
/- ------------------------------------------------------------------ -/

/-- C1: `validate_and_clean_data` classifies every row of the batch into
exactly one of the valid and invalid sequences: the valid sequence is the
in-order `filterMap` of the rows the model accepts, the invalid sequence
is the in-order `filter` of the rows it rejects, and the two lengths sum
to the input length — no row is lost or duplicated, and each output lists
its rows in the original input row order. -/
theorem claim1_partition_preserves_rows_and_order {Row E R : Type}
    (f : Row → Except E R) (g : Row → Nat → Nat) (df : List Row) :
    (DataCleaning.validate_and_clean_data f g df).valid_data =
      df.filterMap (fun r => (f r).toOption) ∧
    (DataCleaning.validate_and_clean_data f g df).invalid_data =
      df.filter (fun r => (f r).toOption.isNone) ∧
    (DataCleaning.validate_and_clean_data f g df).valid_data.length +
      (DataCleaning.validate_and_clean_data f g df).invalid_data.length =
      df.length :=
  cleanRows_spec f g 0 df

/-- C1 witness: the partition-count identity evaluated on a concrete
two-row `DateModel` batch (one valid row, one row with a missing
timestamp). -/
theorem claim1_witness :
    (DataCleaning.validate_and_clean_data DateModel.model_validate
        DateModel.dateRowIndex [goodDateRow, missingTsRow]).valid_data.length +
      (DataCleaning.validate_and_clean_data DateModel.model_validate
        DateModel.dateRowIndex [goodDateRow, missingTsRow]).invalid_data.length = 2 :=
  (claim1_partition_preserves_rows_and_order DateModel.model_validate
    DateModel.dateRowIndex [goodDateRow, missingTsRow]).2.2

/-- C2 counterexample: on a batch whose `timestamp` column is absent for a
row, cleaning does NOT abort — the batch completes, the affected row is
classified invalid, and the absence IS recorded as a per-row validation
failure ("Field required" on field `timestamp`), contradicting the claim
that a missing required column is a fatal configuration error that is not
recorded per-row. -/
theorem claim2_counterexample :
    (DataCleaning.validate_and_clean_data DateModel.model_validate
        DateModel.dateRowIndex [missingTsRow, goodDateRow]).valid_data =
      [goodDateRecord] ∧
    (DataCleaning.validate_and_clean_data DateModel.model_validate
        DateModel.dateRowIndex [missingTsRow, goodDateRow]).invalid_data =
      [missingTsRow] ∧
    (DataCleaning.validate_and_clean_data DateModel.model_validate
        DateModel.dateRowIndex [missingTsRow, goodDateRow]).invalid_errors =
      [(0, [(("timestamp".data), DateModel.fieldRequired)], missingTsRow)] := by
  refine ⟨by decide, by decide, by decide⟩

/-- C2 as amended: a required column absent from the batch surfaces as a
per-row "Field required" validation failure on every row; the batch is
never aborted — it completes with the usual partition, every row in the
invalid sequence and each error entry carrying the missing-field error. -/
theorem claim2_missing_column_is_per_row_failure
    (df : List DateModel.RawDateRow) (h : ∀ r ∈ df, r.timestamp = none) :
    (DataCleaning.validate_and_clean_data DateModel.model_validate
        DateModel.dateRowIndex df).valid_data = [] ∧
    (DataCleaning.validate_and_clean_data DateModel.model_validate
        DateModel.dateRowIndex df).invalid_data = df ∧
    ∀ x ∈ (DataCleaning.validate_and_clean_data DateModel.model_validate
        DateModel.dateRowIndex df).invalid_errors,
      (("timestamp".data), DateModel.fieldRequired) ∈ x.2.1 :=
  cleanRows_all_error DateModel.model_validate DateModel.dateRowIndex
    (fun e => (("timestamp".data), DateModel.fieldRequired) ∈ e) 0 df
    (fun r hr => by
      obtain ⟨tail, ht⟩ := model_validate_missing_timestamp r (h r hr)
      exact ⟨_, ht, List.mem_cons_self _ _⟩)

/-- C2 witness: the amended statement evaluated on the concrete one-row
batch with the `timestamp` column absent. -/
theorem claim2_witness :
    (DataCleaning.validate_and_clean_data DateModel.model_validate
        DateModel.dateRowIndex [missingTsRow]).invalid_data = [missingTsRow] :=
  (claim2_missing_column_is_per_row_failure [missingTsRow] (by decide)).2.1

/-- C3 counterexample: for a row whose country is "Germany" and whose
country-code value is exactly "GGB", no correction is applied
(the sibling-country confirmation fails) and the field is rejected as too
long — refuting "for every row whose country-code field is exactly GGB,
the value is corrected to GB and accepted as valid". -/
theorem claim3_counterexample :
    UserModel.validate_country_code (some ("Germany".data)) ("GGB".data) =
      ("GGB".data) ∧
    UserModel.country_code_field (some ("Germany".data)) ("GGB".data) =
      Except.error ("String should have at most 2 characters".data) := by
  refine ⟨by decide, by decide⟩

/-- C3 as amended: "GGB" is corrected to "GB" and accepted only when the
sibling country field equals "United Kingdom"; for any other country
value "GGB" is rejected uncorrected, and the lower-case "ggb" is never
corrected and always rejected. -/
theorem claim3_ggb_correction_requires_uk :
    UserModel.country_code_field (some ("United Kingdom".data)) ("GGB".data) =
      Except.ok ("GB".data) ∧
    (∀ c, UserModel.country_code_field c ("ggb".data) =
      Except.error ("String should have at most 2 characters".data)) ∧
    (∀ c, c ≠ some ("United Kingdom".data) →
      UserModel.country_code_field c ("GGB".data) =
        Except.error ("String should have at most 2 characters".data)) := by
  refine ⟨by decide, ?_, ?_⟩
  · intro c
    unfold UserModel.country_code_field
    rw [validate_country_code_of_value_ne c _ (by decide)]
    decide
  · intro c hc
    unfold UserModel.country_code_field
    rw [validate_country_code_of_country_ne c _ hc]
    decide

/-- C3 witness: the no-country case of the amended statement, with its
hypothesis discharged at the concrete value `none`. -/
theorem claim3_witness :
    UserModel.country_code_field none ("GGB".data) =
      Except.error ("String should have at most 2 characters".data) :=
  claim3_ggb_correction_requires_uk.2.2 none (by decide)

/-- C4 counterexample: the input "+49(0)123456789" does not normalize to
"0123456789"; the cleaned result is non-empty and does not start with the
character 0 — refuting both the stated invariant and the scenario. -/
theorem claim4_counterexample :
    UserModel.clean_phone_number ("+49(0)123456789".data) ≠ ("0123456789".data) ∧
    UserModel.clean_phone_number ("+49(0)123456789".data) ≠ [] ∧
    (UserModel.clean_phone_number ("+49(0)123456789".data)).head? ≠ some '0' := by
  refine ⟨by decide, by decide, by decide⟩

/-- C4 as amended: the phone normalizer strips the international prefix
"+NN(0)", removes all parentheses and then deletes the leading two or
three digits of what remains, so "+49(0)123456789" normalizes to
"456789"; the output is guaranteed to contain no parentheses, but it need
not start with "0". -/
theorem claim4_phone_normalizer_behavior :
    UserModel.clean_phone_number ("+49(0)123456789".data) = ("456789".data) ∧
    ∀ v, '(' ∉ UserModel.clean_phone_number v ∧
      ')' ∉ UserModel.clean_phone_number v :=
  ⟨by decide, parens_not_mem_clean_phone_number⟩

/-- C4 witness: the no-parentheses guarantee evaluated at a concrete
input. -/
theorem claim4_witness : '(' ∉ UserModel.clean_phone_number ("(0)12".data) :=
  (claim4_phone_normalizer_behavior.2 ("(0)12".data)).1

/-- C5 counterexample: the phone normalizer is not the identity on the
canonical value "0123456789" — it removes the three leading digits,
producing "3456789". -/
theorem claim5_counterexample :
    UserModel.clean_phone_number ("0123456789".data) = ("3456789".data) ∧
    ("3456789".data) ≠ ("0123456789".data) := by
  refine ⟨by decide, by decide⟩

/-- C5 as amended: the country-code pipeline returns the canonical "GB"
unchanged for every country value, but the phone normalizer fails the
round-trip: the canonical "0123456789" maps to "3456789". -/
theorem claim5_country_code_roundtrip_only :
    (∀ c, UserModel.country_code_field c ("GB".data) = Except.ok ("GB".data)) ∧
    UserModel.clean_phone_number ("0123456789".data) = ("3456789".data) := by
  refine ⟨?_, by decide⟩
  intro c
  unfold UserModel.country_code_field
  rw [validate_country_code_of_value_ne c _ (by decide)]
  decide

/-- C5 witness: the country-code round-trip evaluated at a concrete
country value. -/
theorem claim5_witness :
    UserModel.country_code_field (some ("United Kingdom".data)) ("GB".data) =
      Except.ok ("GB".data) :=
  claim5_country_code_roundtrip_only.1 (some ("United Kingdom".data))

/-- C6: the wired `DateModel` validation accepts a row whose timestamp is
"99:99:99" and whose day/month/year are 31/2/2020, because the
`validate_timestamp` and `validate_day` classmethods carry no
`field_validator` decorator and never run; the model's own documented
checks (embedded here as `validate_day` and `validate_timestamp`) would
reject both values — the code contradicts its own documentation. -/
theorem claim6_feb31_accepted :
    (DateModel.model_validate feb31Row).isOk = true ∧
    DateModel.validate_day 31 2 2020 =
      Except.error ("Invalid day for the given month and year".data) ∧
    DateModel.validate_timestamp ("99:99:99".data) =
      Except.error ("Invalid timestamp format".data) := by
  refine ⟨by decide, by decide, by decide⟩

/-- C7: a present product quantity of exactly 0 is accepted by the order
model — `if value and value <= 0` skips the check because 0 is falsy —
although the validator's own docstring and error message require a
quantity strictly greater than 0; a negative quantity is rejected as
documented. -/
theorem claim7_zero_quantity_accepted :
    OrderModel.product_quantity_field (some 0) = Except.ok (some 0) ∧
    OrderModel.validate_product_quantity (some 0) = Except.ok (some 0) ∧
    OrderModel.product_quantity_field (some (-1)) =
      Except.error ("Product quantity must be greater than 0.".data) := by
  refine ⟨by decide, by decide, by decide⟩

/-- C8 counterexample: the payment model accepts the two-digit card number
"12" (its length check is commented out in the source), and the order
model accepts "1234-5678-901" unchanged, hyphens included (it checks the
raw string length and strips nothing) — refuting "stripped to digits and
accepted iff between 9 and 19 digits" for both models. -/
theorem claim8_counterexample :
    PaymentModel.card_number_field ("12".data) = ("12".data) ∧
    OrderModel.card_number_field ("1234-5678-901".data) =
      Except.ok ("1234-5678-901".data) := by
  refine ⟨by decide, by decide⟩

/-- C8 as amended: the payment model strips every non-digit character and
accepts the result with no length bound at all; the order model strips
nothing and accepts exactly when the raw string length — non-digits
included — lies between 9 and 19, returning the (whitespace-stripped)
string unchanged. -/
theorem claim8_card_number_actual (s : PyStr) :
    PaymentModel.card_number_field s = s.filter Char.isDigit ∧
    ((OrderModel.card_number_field s).isOk = true ↔
      9 ≤ s.length ∧ s.length ≤ 19) ∧
    (9 ≤ s.length → s.length ≤ 19 →
      OrderModel.card_number_field s = Except.ok (pystrip s)) := by
  refine ⟨?_, ?_, ?_⟩
  · unfold PaymentModel.card_number_field PaymentModel.validate_card_number
    exact pystrip_eq_self_of_no_space _
      (fun c hc => isSpace_eq_false_of_isDigit (List.mem_filter.mp hc).2)
  · unfold OrderModel.card_number_field OrderModel.validate_card_number
    by_cases h9 : 9 ≤ s.length
    · by_cases h19 : s.length ≤ 19
      · simp [h9, h19, Except.map, isOk_ok]
      · simp [h9, h19, Except.map, isOk_error]
    · simp [h9, Except.map, isOk_error]
  · intro h9 h19
    unfold OrderModel.card_number_field OrderModel.validate_card_number
    simp [h9, h19, Except.map]

/-- C8 witness: the amended statement evaluated at the repository's own
test card number and at a nine-digit card. -/
theorem claim8_witness :
    PaymentModel.card_number_field ("1234-5678-9876-5432".data) =
      (("1234-5678-9876-5432".data).filter Char.isDigit) ∧
    OrderModel.card_number_field ("123456789".data) =
      Except.ok (pystrip ("123456789".data)) :=
  ⟨(claim8_card_number_actual ("1234-5678-9876-5432".data)).1,
   (claim8_card_number_actual ("123456789".data)).2.2 (by decide) (by decide)⟩

/-- C9 counterexample: "g100" carries no trailing unit token among kg, g,
ml, oz, so under the claim it must be invalid — yet the code accepts it
with value 100 grams, because units are recognised by substring
containment anywhere in the value, not as a trailing token. -/
theorem claim9_counterexample :
    ProductModel.validate_weight ("g100".data) = Except.ok 100 ∧
    (("kg".data).isSuffixOf ("g100".data) = false ∧
     ("g".data).isSuffixOf ("g100".data) = false ∧
     ("ml".data).isSuffixOf ("g100".data) = false ∧
     ("oz".data).isSuffixOf ("g100".data) = false) := by
  refine ⟨by with_unfolding_all rfl, by decide⟩

/-- C9 as amended: a unit substring contained anywhere in the stripped,
lower-cased input is recognised, tested in the order ml, kg, g, oz, and
the digits and periods of the whole input are parsed and scaled by the
fixed factors ml→×1, kg→×1000, g→×1, oz→×28.3495; "1kg" normalizes to
1000 grams (case-insensitively), "1lb" has no recognised unit and is
invalid, the unit need not be trailing ("g100" → 100), and an earlier
unit in the priority order wins ("5mlkg" → 5). -/
theorem claim9_weight_unit_containment :
    ProductModel.validate_weight ("1kg".data) = Except.ok 1000 ∧
    ProductModel.validate_weight ("1KG".data) = Except.ok 1000 ∧
    ProductModel.validate_weight ("1lb".data) =
      Except.error ("Weight must be in kg or g".data) ∧
    ProductModel.validate_weight ("5ml".data) = Except.ok 5 ∧
    ProductModel.validate_weight ("10g".data) = Except.ok 10 ∧
    ProductModel.validate_weight ("1oz".data) =
      Except.ok ((283495 : Rat) / 10000) ∧
    ProductModel.validate_weight ("g100".data) = Except.ok 100 ∧
    ProductModel.validate_weight ("5mlkg".data) = Except.ok 5 := by
  refine ⟨by with_unfolding_all rfl, by with_unfolding_all rfl, by decide,
    by with_unfolding_all rfl, by with_unfolding_all rfl,
    by with_unfolding_all rfl, by with_unfolding_all rfl,
    by with_unfolding_all rfl⟩

/-- C10 counterexample: two raw phone values that differ only in a leading
space produce different normalized records: pydantic's whitespace
stripping runs after the `mode="before"` normalizer, whose anchored
patterns no longer match — refuting "whitespace is removed before any
validation or normalization runs". -/
theorem claim10_counterexample :
    UserModel.phone_number_field (' ' :: ("+49(0)123456789".data)) =
      ("+490123456789".data) ∧
    UserModel.phone_number_field ("+49(0)123456789".data) = ("456789".data) ∧
    ("+490123456789".data) ≠ ("456789".data) := by
  refine ⟨by decide, by decide, by decide⟩

/-- C10 as amended: stripping happens during pydantic string coercion,
which runs before after-mode validators but after before-mode
normalizers: for a field validated only in after mode (product weight)
surrounding whitespace never changes the outcome, while a before-mode
normalizer (phone) sees the raw value, so surrounding whitespace can
change the normalized result. -/
theorem claim10_strip_timing :
    (∀ s, ProductModel.weight_field ((' ' :: s) ++ [' ']) =
      ProductModel.weight_field s) ∧
    UserModel.phone_number_field (' ' :: ("+49(0)123456789".data)) ≠
      UserModel.phone_number_field ("+49(0)123456789".data) := by
  refine ⟨?_, by decide⟩
  intro s
  unfold ProductModel.weight_field
  rw [List.cons_append, pystrip_cons_space, pystrip_concat_space]

/-- C10 witness: whitespace-insensitivity of the weight field evaluated at
a concrete input. -/
theorem claim10_witness :
    ProductModel.weight_field ((' ' :: ("1kg".data)) ++ [' ']) =
      ProductModel.weight_field ("1kg".data) :=
  claim10_strip_timing.1 ("1kg".data)

end RetailClean
